import Mathlib

/-!
Shallow embedding of `src/dataview.py` (class `DataPlot` and its methods).

Modelling conventions, stated once for the whole file:

* Python floats are modelled as exact rationals (`ℚ`); the claims under
  study are about exact integer and interval behaviour, not about binary
  rounding.
* The source file uses the bare names `ceil` (line 138) and `ndarray`
  (line 75) without importing them; their evident referents are the
  mathematical ceiling function (`math.ceil`) and the numpy array type.
  The embedding models those referents.  Where a claim depends on this
  resolution it is recorded in the verification results.
* The matplotlib rendering surface is external to the repository; it is
  modelled as storage: the `line` field of the state holds the data pair
  last handed to the renderer (`ax.plot` / `line.set_data`).
* Fallible Python code (exceptions) is modelled with `Except`:
  a raised exception is an `.error` result and no state is produced.
* `DataPlot._point_max` is always `default_kwargs[point_max] = 1e4`
  (line 86 reads the class dictionary and ignores user kwargs), so the
  constructor stores the constant 10000 in the `point_max` field.
-/

deriving instance DecidableEq for Except

namespace Dataview

/-- Python `int()` conversion of an exact rational: truncation toward zero,
which on the numerator and (positive) denominator is `Int.tdiv`. -/
def pyInt (q : ℚ) : ℤ := q.num.tdiv q.den

/-- DataPlot._calc_downfact (lines 136-139): `int(ceil(point_num / self._point_max))`.
With `from __future__ import division` the division is exact; `point_num` is an
integer and `point_max` the float point budget, so `int` is the identity on the
ceiling.  `Rat.ceil` is the executable ceiling; `ratCeil_eq` below identifies it
with the mathematical `Int.ceil`. -/
def calc_downfact (point_max : ℚ) (point_num : ℤ) : ℤ :=
  Rat.ceil ((point_num : ℚ) / point_max)

/-- Worker for `strideSlice`: `c` counts the elements still to skip before
the next kept element; after keeping one, `k - 1` elements are skipped. -/
def strideAux (k : ℕ) : ℕ → List ℚ → List ℚ
  | _, [] => []
  | 0, x :: xs => x :: strideAux k (k - 1) xs
  | n + 1, _ :: xs => strideAux k n xs

/-- Python extended slice `xs[::k]` for a positive step `k`: every `k`-th
element starting from index 0. -/
def strideSlice (k : ℕ) (xs : List ℚ) : List ℚ := strideAux k 0 xs

/-- Exceptions that construction or a callback can surface.  `typeError`,
`attrError`, `indexError` and `zeroDivError` are the built-in Python
exceptions the source can actually raise.  `shapeError` and `configError`
are the error taxonomy named by the spec (section 7); they are listed here
so that theorems can state whether the code ever produces them. -/
inductive PyError where
  | typeError
  | attrError
  | indexError
  | zeroDivError
  | shapeError
  | configError
deriving DecidableEq, Repr

/-- Construction-time input surface of `DataPlot.__init__`: either a single
numpy array of scalars (`data` with a `.shape`), or a list/tuple of arrays.
A second positional array may be passed through `args`, and the sampling
rate through the keyword `fs` (modelled as `Option ℚ`, `none` = absent). -/
inductive PyInput where
  | arr (a : List ℚ)
  | seq (elems : List (List ℚ))
deriving DecidableEq, Repr

/-- Session state of a `DataPlot` instance.  `data_x`/`data_y` are the two
axes stored in `self.data`; `fs` is `self.fs` (`none` = Python `None`);
`ts` is `self.ts`; `point_max` is `self._point_max`; `line` is the data
pair currently held by the rendered matplotlib line; `changed` is
`self.changed`, the view range recorded by the `xlim_changed` callback
(`none` = attribute not yet set). -/
structure DataPlotState where
  data_x : List ℚ
  data_y : List ℚ
  fs : Option ℚ
  ts : ℚ
  point_max : ℚ
  line : List ℚ × List ℚ
  changed : Option (ℚ × ℚ)
deriving DecidableEq, Repr

/-- DataPlot._plotdata (lines 92-112), reduced to the data handed to
`ax.plot`: when the series holds more than `point_max` points the whole
series is strided by the downsampling factor, otherwise everything is
plotted. -/
def plotdata_line (dx dy : List ℚ) (point_max : ℚ) : List ℚ × List ℚ :=
  let point_num := dx.length
  if (point_num : ℚ) > point_max then
    let down_fact := (calc_downfact point_max (point_num : ℤ)).toNat
    (strideSlice down_fact dx, strideSlice down_fact dy)
  else
    (dx, dy)

/-- State produced by a successful `__init__`: data stored, `point_max`
set to the constant budget 10000, initial line plotted by `_plotdata`,
and no view-range change recorded yet. -/
def mkState (dx dy : List ℚ) (fs : Option ℚ) (ts : ℚ) : DataPlotState :=
  { data_x := dx
    data_y := dy
    fs := fs
    ts := ts
    point_max := 10000
    line := plotdata_line dx dy 10000
    changed := none }

/-- Epilogue of `__init__` (lines 77-89) for a constructor branch that
stored axes `(dx, dy)` and left `self.fs = fs`: when `fs` is truthy
(present and nonzero) the interval is `1 / fs`; otherwise it is read from
the first two samples of the x axis (`IndexError` when the x axis has
fewer than two samples).  Then `_point_max` is set and `_plotdata` runs. -/
def finishInit (dx dy : List ℚ) (fs : Option ℚ) : Except PyError DataPlotState :=
  match fs with
  | some f =>
    if f = 0 then
      if dx.length < 2 then .error .indexError
      else .ok (mkState dx dy (some f) (dx.getD 1 0 - dx.getD 0 0))
    else .ok (mkState dx dy (some f) (1 / f))
  | none =>
    if dx.length < 2 then .error .indexError
    else .ok (mkState dx dy none (dx.getD 1 0 - dx.getD 0 0))

/-- DataPlot.__init__ (lines 30-89).

Branch A (single array, no second positional argument, `len(data) > 2`):
a time vector `arange(len(data)) / fs` is synthesized; a falsy `fs`
(absent or zero) is replaced by 1.

Branch B (array plus a second positional array): the pair is stored with
no shape or length validation at all.

Branch C (`len(data) == 2`): for a two-element list/tuple the pair of
contained arrays is stored.  For a two-element numpy array of scalars the
scalars themselves become `self.data`, and every later subscript or `len`
of a scalar raises `TypeError` before a state exists.

When no branch assigns `self.data` (single array of length < 2 with no
second argument, or a sequence whose length is not 2) the epilogue or
`_plotdata` reads the missing attribute and raises `AttributeError`. -/
def construct (data : PyInput) (args : List (List ℚ)) (fs : Option ℚ) :
    Except PyError DataPlotState :=
  match data, args with
  | .arr a, [] =>
    if 2 < a.length then
      let f : ℚ := match fs with
        | some f => if f = 0 then 1 else f
        | none => 1
      let x := (List.range a.length).map (fun i : ℕ => (i : ℚ) / f)
      finishInit x a (some f)
    else if a.length = 2 then .error .typeError
    else .error .attrError
  | .arr a, y :: _ => finishInit a y fs
  | .seq es, _ =>
    match es with
    | [x, y] => finishInit x y fs
    | _ => .error .attrError

/-- DataPlot._onchanged (lines 142-144): record the new x limits. -/
def onchanged (lims : ℚ × ℚ) (s : DataPlotState) : DataPlotState :=
  { s with changed := some lims }

/-- Data pair computed by DataPlot._onrelease (lines 115-133) and handed to
`self.line.set_data`: read the recorded limits (clamping a negative low
bound to 0), convert the visible width to a point count, and when that
count exceeds the budget stride the FULL series by the downsampling
factor - otherwise hand over the full unstrided series.  Reading a missing
`self.changed` raises `AttributeError`; a zero sampling interval raises
`ZeroDivisionError`. -/
def onrelease_data (s : DataPlotState) : Except PyError (List ℚ × List ℚ) :=
  match s.changed with
  | none => .error .attrError
  | some (c0, c1) =>
    let lohi := if c0 < 0 then ((0 : ℚ), c1) else (c0, c1)
    if s.ts = 0 then .error .zeroDivError
    else
      let point_num : ℤ := pyInt ((lohi.2 - lohi.1) / s.ts)
      if (point_num : ℚ) > s.point_max then
        let down_fact := (calc_downfact s.point_max point_num).toNat
        .ok (strideSlice down_fact s.data_x, strideSlice down_fact s.data_y)
      else
        .ok (s.data_x, s.data_y)

/-- DataPlot._onrelease: the mouse-release callback updates the rendered
line in place with the recomputed data pair and changes nothing else. -/
def onrelease (s : DataPlotState) : Except PyError DataPlotState :=
  (onrelease_data s).map (fun L => { s with line := L })

/-- Value axis for the end-to-end scenario of the spec: 1,000,000 uniformly
spaced samples. -/
def bigY : List ℚ := List.replicate 1000000 0

/-- Time axis synthesized for `bigY` at sampling rate 100 Hz, so that the
window (0, 1000) contains 100,000 samples. -/
def bigX : List ℚ := (List.range 1000000).map (fun i : ℕ => (i : ℚ) / 100)

/-! ## Helper lemmas -/

/-- Definitional unfolding of the big value axis, recorded as an equation
so the definition itself can be sealed against accidental evaluation. -/
theorem bigY_eq : bigY = List.replicate 1000000 0 := rfl

/-- Definitional unfolding of the big time axis. -/
theorem bigX_eq : bigX = (List.range 1000000).map (fun i : ℕ => (i : ℚ) / 100) := rfl

/-- Length of the scenario value axis. -/
theorem bigY_length : bigY.length = 1000000 := by
  rw [bigY_eq, List.length_replicate]

/-- Length of the scenario time axis. -/
theorem bigX_length : bigX.length = 1000000 := by
  rw [bigX_eq, List.length_map, List.length_range]

attribute [irreducible] bigX bigY

/-- Reading a synthesized time axis at an in-range index. -/
theorem getD_range_map (f : ℕ → ℚ) (n i : ℕ) (h : i < n) :
    ((List.range n).map f).getD i 0 = f i := by
  rw [List.getD_eq_getElem?_getD]
  simp [List.getElem?_map, List.getElem?_range, h]

/-- The constructor epilogue either succeeds or raises IndexError. -/
theorem finishInit_cases (dx dy : List ℚ) (fs : Option ℚ) :
    (∃ s, finishInit dx dy fs = .ok s) ∨ finishInit dx dy fs = .error .indexError := by
  cases fs with
  | none =>
    simp only [finishInit]
    split
    · exact Or.inr rfl
    · exact Or.inl ⟨_, rfl⟩
  | some f =>
    simp only [finishInit]
    split
    · split
      · exact Or.inr rfl
      · exact Or.inl ⟨_, rfl⟩
    · exact Or.inl ⟨_, rfl⟩

/-- Construction either succeeds or raises one of TypeError, AttributeError,
IndexError: the Python exceptions reachable from `__init__`. -/
theorem construct_error_mem (d : PyInput) (args : List (List ℚ)) (fs : Option ℚ) :
    (∃ s, construct d args fs = .ok s) ∨
      construct d args fs = .error .typeError ∨
      construct d args fs = .error .attrError ∨
      construct d args fs = .error .indexError := by
  cases d with
  | arr a =>
    cases args with
    | nil =>
      simp only [construct]
      split
      · rcases finishInit_cases ((List.range a.length).map
            (fun i : ℕ => (i : ℚ) / (match fs with | some f => if f = 0 then 1 else f | none => 1)))
            a (some (match fs with | some f => if f = 0 then 1 else f | none => 1)) with
          ⟨s, hs⟩ | hs
        · exact Or.inl ⟨s, hs⟩
        · exact Or.inr (Or.inr (Or.inr hs))
      · split
        · exact Or.inr (Or.inl rfl)
        · exact Or.inr (Or.inr (Or.inl rfl))
    | cons y ys =>
      simp only [construct]
      rcases finishInit_cases a y fs with ⟨s, hs⟩ | hs
      · exact Or.inl ⟨s, hs⟩
      · exact Or.inr (Or.inr (Or.inr hs))
  | seq es =>
    rcases es with _ | ⟨x, _ | ⟨y, _ | ⟨z, rest⟩⟩⟩
    · exact Or.inr (Or.inr (Or.inl rfl))
    · exact Or.inr (Or.inr (Or.inl rfl))
    · simp only [construct]
      rcases finishInit_cases x y fs with ⟨s, hs⟩ | hs
      · exact Or.inl ⟨s, hs⟩
      · exact Or.inr (Or.inr (Or.inr hs))
    · exact Or.inr (Or.inr (Or.inl rfl))

/-- Rat.ceil agrees with the mathematical ceiling. -/
theorem ratCeil_eq (q : ℚ) : Rat.ceil q = ⌈q⌉ := by
  unfold Rat.ceil
  split
  case isTrue h =>
    have hq : ((q.num : ℚ)) = q := Rat.coe_int_num_of_den_eq_one h
    rw [← hq, Int.ceil_intCast]
    simp
  case isFalse h =>
    have hfl : q.num / (q.den : ℤ) = ⌊q⌋ := Rat.floor_def.symm
    rw [hfl]
    have hne : ((⌊q⌋ : ℚ)) ≠ q := by
      intro he
      exact h (by rw [← he]; exact Rat.den_intCast ⌊q⌋)
    have hlt : ((⌊q⌋ : ℚ)) < q := lt_of_le_of_ne (Int.floor_le q) hne
    have hup : q < (⌊q⌋ : ℚ) + 1 := Int.lt_floor_add_one q
    symm
    rw [Int.ceil_eq_iff]
    constructor
    · push_cast
      linarith
    · push_cast
      linarith

/-- Length of the stride worker: elements are kept at offsets
`c, c + k, c + 2k, ...`. -/
theorem strideAux_length (k : ℕ) (hk : 1 ≤ k) :
    ∀ (xs : List ℚ) (c : ℕ), (strideAux k c xs).length = (xs.length - c + k - 1) / k := by
  intro xs
  induction xs with
  | nil =>
    intro c
    simp only [strideAux, List.length_nil, Nat.zero_sub, Nat.zero_add]
    rw [Nat.div_eq_of_lt (by omega)]
  | cons x xs ih =>
    intro c
    match c with
    | 0 =>
      simp only [strideAux, List.length_cons, ih (k - 1)]
      rcases le_or_lt (k - 1) xs.length with h | h
      · have h1 : xs.length - (k - 1) + k - 1 = xs.length := by omega
        have h2 : xs.length + 1 - 0 + k - 1 = xs.length + k := by omega
        rw [h1, h2, Nat.add_div_right _ (by omega)]
      · have h1 : xs.length - (k - 1) + k - 1 = k - 1 := by omega
        have h2 : xs.length + 1 - 0 + k - 1 = xs.length + k := by omega
        rw [h1, h2, Nat.div_eq_of_lt (by omega), Nat.add_div_right _ (by omega),
          Nat.div_eq_of_lt (by omega)]
    | n + 1 =>
      simp only [strideAux, List.length_cons, ih n]
      have h1 : xs.length + 1 - (n + 1) + k - 1 = xs.length - n + k - 1 := by omega
      rw [h1]

/-- Length of a strided slice: `ceil(len / k)` as natural division. -/
theorem strideSlice_length (k : ℕ) (hk : 1 ≤ k) (xs : List ℚ) :
    (strideSlice k xs).length = (xs.length + k - 1) / k := by
  have h := strideAux_length k hk xs 0
  simpa [strideSlice] using h

/-- The release recompute never reads the line field, so updating the line
does not change the recomputed data. -/
theorem onrelease_data_set_line (s : DataPlotState) (L : List ℚ × List ℚ) :
    onrelease_data { s with line := L } = onrelease_data s := rfl

/-! ## Claim theorems -/

/-- C3: for every integer pointCount > 0, the downsampling factor computed
by `_calc_downfact` equals `ceil(pointCount / PointBudget)` with the budget
10000 the code always uses, is at least 1, and pointCount divided by the
returned factor is at most the budget. -/
theorem c3_calc_downfact_spec (n : ℤ) (h : 0 < n) :
    1 ≤ calc_downfact 10000 n ∧
      (n : ℚ) / ((calc_downfact 10000 n : ℤ) : ℚ) ≤ 10000 := by
  have e : calc_downfact 10000 n = ⌈(n : ℚ) / 10000⌉ := by
    rw [calc_downfact, ratCeil_eq]
  have hn : (0 : ℚ) < (n : ℚ) := by exact_mod_cast h
  have hq : (0 : ℚ) < (n : ℚ) / 10000 := by positivity
  have h1 : 0 < ⌈(n : ℚ) / 10000⌉ := Int.ceil_pos.mpr hq
  have hle : (n : ℚ) / 10000 ≤ ((⌈(n : ℚ) / 10000⌉ : ℤ) : ℚ) := Int.le_ceil _
  have hc : (0 : ℚ) < ((⌈(n : ℚ) / 10000⌉ : ℤ) : ℚ) := by exact_mod_cast h1
  constructor
  · rw [e]; omega
  · rw [e, div_le_iff₀ hc]
    have h2 : (n : ℚ) ≤ ((⌈(n : ℚ) / 10000⌉ : ℤ) : ℚ) * 10000 :=
      (div_le_iff₀ (by norm_num)).mp hle
    linarith

/-- Witness for C3 at pointCount 12345. -/
theorem c3_calc_downfact_spec_witness :
    1 ≤ calc_downfact 10000 12345 ∧
      ((12345 : ℤ) : ℚ) / ((calc_downfact 10000 12345 : ℤ) : ℚ) ≤ 10000 :=
  c3_calc_downfact_spec 12345 (by decide)

/-- C5: two consecutive release recomputes with no intervening view-range
change hand identical data to the renderer: the second call reads the same
recorded range, series and budget, so it recomputes the same payload. -/
theorem c5_onrelease_idempotent (s s1 s2 : DataPlotState)
    (h1 : onrelease s = .ok s1) (h2 : onrelease s1 = .ok s2) :
    s1.line = s2.line := by
  unfold onrelease at h1 h2
  cases hd : onrelease_data s with
  | error e =>
    rw [hd] at h1
    exact Except.noConfusion h1
  | ok L =>
    rw [hd] at h1
    simp only [Except.map] at h1
    have hs1 : s1 = { s with line := L } := by
      cases h1
      rfl
    rw [hs1, onrelease_data_set_line, hd] at h2
    simp only [Except.map] at h2
    have hs2 : s2 = { s with line := L } := by
      cases h2
      rfl
    rw [hs1, hs2]

/-- C9: the release recompute changes only the rendered line data; the raw
series axes, the sampling rate and interval, the point budget, and even the
recorded view range are all left untouched. -/
theorem c9_onrelease_frame (s s' : DataPlotState) (h : onrelease s = .ok s') :
    s'.data_x = s.data_x ∧ s'.data_y = s.data_y ∧ s'.fs = s.fs ∧ s'.ts = s.ts ∧
      s'.point_max = s.point_max ∧ s'.changed = s.changed ∧
      ∃ L, onrelease_data s = .ok L ∧ s' = { s with line := L } := by
  unfold onrelease at h
  cases hd : onrelease_data s with
  | error e =>
    rw [hd] at h
    exact Except.noConfusion h
  | ok L =>
    rw [hd] at h
    simp only [Except.map] at h
    have hs : s' = { s with line := L } := by
      cases h
      rfl
    rw [hs]
    exact ⟨rfl, rfl, rfl, rfl, rfl, rfl, L, rfl, rfl⟩

/-- C4 (amended): releasing after a recorded range of (-50, 100) clamps the
low bound to 0 and hands the renderer exactly the payload of a recorded
range of (0, 100); the resulting states agree everywhere except that each
keeps its own recorded view range, which the release callback never
rewrites. -/
theorem c4_clamp_amended (s : DataPlotState) :
    onrelease_data { s with changed := some (-50, 100) } =
        onrelease_data { s with changed := some (0, 100) } ∧
      onrelease { s with changed := some (-50, 100) } =
        Except.map (fun r => { r with changed := some (-50, 100) })
          (onrelease { s with changed := some (0, 100) }) := by
  have hdata : onrelease_data { s with changed := some (-50, 100) } =
      onrelease_data { s with changed := some (0, 100) } := by
    simp only [onrelease_data]
    norm_num
  refine ⟨hdata, ?_⟩
  unfold onrelease
  rw [hdata]
  cases onrelease_data { s with changed := some (0, 100) } with
  | error e => rfl
  | ok L => rfl

section ConcreteEvaluation

attribute [local semireducible] Rat.mul Rat.inv Rat.add Rat.sub Rat.ofScientific

/-- C4 (counterexample): after recorded ranges (-50, 100) and (0, 100) the
release recompute hands the renderer the same payload, but the two final
states are NOT equal: each keeps its own recorded view range, which the
release callback never rewrites. -/
theorem c4_counterexample :
    ∃ r1 r2,
      onrelease { data_x := [0], data_y := [0], fs := some 1, ts := 1, point_max := 10000,
                  line := ([], []), changed := some (-50, 100) } = .ok r1 ∧
      onrelease { data_x := [0], data_y := [0], fs := some 1, ts := 1, point_max := 10000,
                  line := ([], []), changed := some (0, 100) } = .ok r2 ∧
      r1.line = r2.line ∧ r1 ≠ r2 := by
  refine ⟨_, _, rfl, rfl, rfl, by decide⟩

/-- Witness for C5: a release recompute on a concrete session, repeated with
no intervening view-range change, keeps the same line data. -/
theorem c5_onrelease_idempotent_witness :
    ({ data_x := [0], data_y := [0], fs := some 1, ts := 1, point_max := 10000,
       line := ([0], [0]), changed := some (0, 100) } : DataPlotState).line =
      ({ data_x := [0], data_y := [0], fs := some 1, ts := 1, point_max := 10000,
         line := ([0], [0]), changed := some (0, 100) } : DataPlotState).line :=
  c5_onrelease_idempotent
    { data_x := [0], data_y := [0], fs := some 1, ts := 1, point_max := 10000,
      line := ([], []), changed := some (0, 100) }
    { data_x := [0], data_y := [0], fs := some 1, ts := 1, point_max := 10000,
      line := ([0], [0]), changed := some (0, 100) }
    { data_x := [0], data_y := [0], fs := some 1, ts := 1, point_max := 10000,
      line := ([0], [0]), changed := some (0, 100) }
    (by decide) (by decide)

/-- Witness for C9 on a concrete session state. -/
theorem c9_onrelease_frame_witness :
    ({ data_x := [0], data_y := [0], fs := some 1, ts := 1, point_max := 10000,
       line := ([0], [0]), changed := some (0, 100) } : DataPlotState).data_x =
        ({ data_x := [0], data_y := [0], fs := some 1, ts := 1, point_max := 10000,
           line := ([], []), changed := some (0, 100) } : DataPlotState).data_x ∧
      ({ data_x := [0], data_y := [0], fs := some 1, ts := 1, point_max := 10000,
         line := ([0], [0]), changed := some (0, 100) } : DataPlotState).data_y =
        ({ data_x := [0], data_y := [0], fs := some 1, ts := 1, point_max := 10000,
           line := ([], []), changed := some (0, 100) } : DataPlotState).data_y ∧
      ({ data_x := [0], data_y := [0], fs := some 1, ts := 1, point_max := 10000,
         line := ([0], [0]), changed := some (0, 100) } : DataPlotState).fs =
        ({ data_x := [0], data_y := [0], fs := some 1, ts := 1, point_max := 10000,
           line := ([], []), changed := some (0, 100) } : DataPlotState).fs ∧
      ({ data_x := [0], data_y := [0], fs := some 1, ts := 1, point_max := 10000,
         line := ([0], [0]), changed := some (0, 100) } : DataPlotState).ts =
        ({ data_x := [0], data_y := [0], fs := some 1, ts := 1, point_max := 10000,
           line := ([], []), changed := some (0, 100) } : DataPlotState).ts ∧
      ({ data_x := [0], data_y := [0], fs := some 1, ts := 1, point_max := 10000,
         line := ([0], [0]), changed := some (0, 100) } : DataPlotState).point_max =
        ({ data_x := [0], data_y := [0], fs := some 1, ts := 1, point_max := 10000,
           line := ([], []), changed := some (0, 100) } : DataPlotState).point_max ∧
      ({ data_x := [0], data_y := [0], fs := some 1, ts := 1, point_max := 10000,
         line := ([0], [0]), changed := some (0, 100) } : DataPlotState).changed =
        ({ data_x := [0], data_y := [0], fs := some 1, ts := 1, point_max := 10000,
           line := ([], []), changed := some (0, 100) } : DataPlotState).changed ∧
      ∃ L,
        onrelease_data
          ({ data_x := [0], data_y := [0], fs := some 1, ts := 1, point_max := 10000,
             line := ([], []), changed := some (0, 100) } : DataPlotState) = .ok L ∧
        ({ data_x := [0], data_y := [0], fs := some 1, ts := 1, point_max := 10000,
           line := ([0], [0]), changed := some (0, 100) } : DataPlotState) =
          { ({ data_x := [0], data_y := [0], fs := some 1, ts := 1, point_max := 10000,
               line := ([], []), changed := some (0, 100) } : DataPlotState) with line := L } :=
  c9_onrelease_frame
    { data_x := [0], data_y := [0], fs := some 1, ts := 1, point_max := 10000,
      line := ([], []), changed := some (0, 100) }
    { data_x := [0], data_y := [0], fs := some 1, ts := 1, point_max := 10000,
      line := ([0], [0]), changed := some (0, 100) }
    (by decide)

/-- C1 (code evaluation at the failing input): a session over the series
with time axis [0, 1, 2, 3], after recording the view range (0, 1) and
releasing, hands the renderer the FULL series - the payload contains the
time values 2 and 3, which lie outside [low, high] = [0, 1]; no windowed
slice is taken. -/
theorem c1_payload_escapes_window :
    ∃ s0 s1,
      construct (.arr [(0 : ℚ), 0, 0, 0]) [] none = .ok s0 ∧
      onrelease (onchanged (0, 1) s0) = .ok s1 ∧
      s1.line.1 = [0, 1, 2, 3] ∧
      ¬ (∀ t ∈ s1.line.1, t ≤ 1) := by
  refine ⟨_, _, rfl, rfl, by decide, by decide⟩

/-- C6 (counterexample at n = 2): constructing from a value vector of
length exactly 2 with fs = 2 does not yield a series at all - the
two-scalar array falls into the two-element branch and construction fails
with TypeError - while the explicit-pair construction of the same data
succeeds with ts = 1/2.  The claimed equivalence therefore fails at
n = 2. -/
theorem c6_counterexample :
    construct (.arr [(0 : ℚ), 0]) [] (some 2) = .error .typeError ∧
      ∃ s, construct (.arr [(0 : ℚ), 1 / 2]) [[(0 : ℚ), 0]] none = .ok s ∧ s.ts = 1 / 2 := by
  exact ⟨by decide, _, rfl, by decide⟩

/-- C6 (amended): for every n >= 3 and value vector of length n, the
value-only construction with fs = 2 and the explicit-pair construction
with time axis arange(n)/2 both succeed and produce the same sampling
interval ts = 1/2. -/
theorem c6_construct_equiv (ys : List ℚ) (h : 3 ≤ ys.length) :
    ∃ s1 s2,
      construct (.arr ys) [] (some 2) = .ok s1 ∧
      construct (.arr ((List.range ys.length).map (fun i : ℕ => (i : ℚ) / 2))) [ys] none =
        .ok s2 ∧
      s1.ts = 1 / 2 ∧ s2.ts = 1 / 2 := by
  have h2 : 2 < ys.length := by omega
  have hf2 : ¬ ((2 : ℚ) = 0) := by norm_num
  have hnl : ¬ (((List.range ys.length).map (fun i : ℕ => (i : ℚ) / 2)).length < 2) := by
    simp only [List.length_map, List.length_range]
    omega
  refine ⟨mkState ((List.range ys.length).map (fun i : ℕ => (i : ℚ) / 2)) ys (some 2) (1 / 2),
    mkState ((List.range ys.length).map (fun i : ℕ => (i : ℚ) / 2)) ys none
      (((List.range ys.length).map (fun i : ℕ => (i : ℚ) / 2)).getD 1 0 -
        ((List.range ys.length).map (fun i : ℕ => (i : ℚ) / 2)).getD 0 0),
    ?_, ?_, rfl, ?_⟩
  · simp only [construct, finishInit, if_pos h2, if_neg hf2]
  · simp only [construct, finishInit, if_neg hnl]
  · show ((List.range ys.length).map (fun i : ℕ => (i : ℚ) / 2)).getD 1 0 -
        ((List.range ys.length).map (fun i : ℕ => (i : ℚ) / 2)).getD 0 0 = 1 / 2
    rw [getD_range_map _ _ 1 (by omega), getD_range_map _ _ 0 (by omega)]
    norm_num

/-- Witness for the amended C6 at the value vector [0, 0, 0]. -/
theorem c6_construct_equiv_witness :
    ∃ s1 s2,
      construct (.arr [(0 : ℚ), 0, 0]) [] (some 2) = .ok s1 ∧
      construct (.arr ((List.range ([(0 : ℚ), 0, 0] : List ℚ).length).map
          (fun i : ℕ => (i : ℚ) / 2))) [[(0 : ℚ), 0, 0]] none = .ok s2 ∧
      s1.ts = 1 / 2 ∧ s2.ts = 1 / 2 :=
  c6_construct_equiv [0, 0, 0] (by decide)

/-- C7 (counterexample): an input of three arrays cannot be resolved into
two axes, yet construction fails with AttributeError, not with a
ShapeError; and a two-array input with axes of UNEQUAL lengths (3 and 1)
is accepted by the constructor without any error. -/
theorem c7_counterexample :
    construct (.seq [[(0 : ℚ)], [0], [0]]) [] none = .error .attrError ∧
      ∃ s, construct (.arr [(0 : ℚ), 1, 2]) [[(5 : ℚ)]] (some 1) = .ok s ∧
        s.data_x.length = 3 ∧ s.data_y.length = 1 := by
  exact ⟨by decide, _, rfl, by decide, by decide⟩

/-- C7 (amended): the constructor performs no shape validation at all - no
input ever produces a ShapeError (the class does not exist in the code;
failures surface as TypeError, AttributeError or IndexError), and any
two-array input with a truthy sampling rate is accepted as-is, equal
lengths or not. -/
theorem c7_no_shape_error :
    (∀ (d : PyInput) (args : List (List ℚ)) (fso : Option ℚ),
        construct d args fso ≠ .error .shapeError) ∧
      (∀ (x y : List ℚ) (f : ℚ), f ≠ 0 →
        construct (.arr x) [y] (some f) = .ok (mkState x y (some f) (1 / f))) := by
  constructor
  · intro d args fso hcontra
    rcases construct_error_mem d args fso with ⟨s, hs⟩ | hs | hs | hs
    · rw [hs] at hcontra
      exact Except.noConfusion hcontra
    · rw [hs] at hcontra
      exact absurd (Except.error.inj hcontra) (by decide)
    · rw [hs] at hcontra
      exact absurd (Except.error.inj hcontra) (by decide)
    · rw [hs] at hcontra
      exact absurd (Except.error.inj hcontra) (by decide)
  · intro x y f hf
    simp only [construct, finishInit, if_neg hf]

/-- Witness for the amended C7: applied to a concrete unresolvable input
and to a concrete unequal-length pair. -/
theorem c7_no_shape_error_witness :
    construct (.seq [[(1 : ℚ)], [2], [3]]) [] none ≠ .error .shapeError ∧
      construct (.arr [(0 : ℚ), 1]) [[(5 : ℚ)]] (some 1) =
        .ok (mkState [(0 : ℚ), 1] [(5 : ℚ)] (some 1) (1 / 1)) :=
  ⟨c7_no_shape_error.1 (.seq [[(1 : ℚ)], [2], [3]]) [] none,
   c7_no_shape_error.2 [(0 : ℚ), 1] [(5 : ℚ)] 1 (by norm_num)⟩

/-- C8 (counterexample): an explicitly supplied negative sampling rate
fs = -1 is NOT rejected - construction succeeds and stores the negative
sampling interval ts = 1/(-1) = -1. -/
theorem c8_counterexample :
    ∃ s, construct (.arr [(0 : ℚ), 0, 0]) [] (some (-1)) = .ok s ∧ s.ts = -1 := by
  exact ⟨_, rfl, by decide⟩

/-- C8 (amended): no ConfigurationError exists in the code.  A negative
sampling rate f < 0 is accepted, stored, and yields the negative interval
ts = 1/f; a zero sampling rate is falsy in Python, so the constructor
silently replaces it by the default fs = 1 with ts = 1. -/
theorem c8_fs_not_rejected (ys : List ℚ) (h : 2 < ys.length) :
    (∀ f : ℚ, f < 0 →
        ∃ s, construct (.arr ys) [] (some f) = .ok s ∧
          s.fs = some f ∧ s.ts = 1 / f ∧ s.ts < 0) ∧
      (∃ s, construct (.arr ys) [] (some 0) = .ok s ∧ s.fs = some 1 ∧ s.ts = 1) ∧
      (∀ (d : PyInput) (args : List (List ℚ)) (fso : Option ℚ),
        construct d args fso ≠ .error .configError) := by
  refine ⟨?_, ?_, ?_⟩
  · intro f hf
    have hfne : ¬ (f = 0) := ne_of_lt hf
    refine ⟨mkState ((List.range ys.length).map (fun i : ℕ => (i : ℚ) / f)) ys
      (some f) (1 / f), ?_, rfl, rfl, ?_⟩
    · simp only [construct, finishInit, if_pos h, if_neg hfne]
    · exact one_div_neg.mpr hf
  · refine ⟨mkState ((List.range ys.length).map (fun i : ℕ => (i : ℚ) / 1)) ys
      (some 1) (1 / 1), ?_, rfl, ?_⟩
    · simp only [construct, finishInit, if_pos h]
      norm_num
    · norm_num [mkState]
  · intro d args fso hcontra
    rcases construct_error_mem d args fso with ⟨s, hs⟩ | hs | hs | hs
    · rw [hs] at hcontra
      exact Except.noConfusion hcontra
    · rw [hs] at hcontra
      exact absurd (Except.error.inj hcontra) (by decide)
    · rw [hs] at hcontra
      exact absurd (Except.error.inj hcontra) (by decide)
    · rw [hs] at hcontra
      exact absurd (Except.error.inj hcontra) (by decide)

/-- Witness for the amended C8 at the value vector [0, 0, 0] with rates
-2 and 0. -/
theorem c8_fs_not_rejected_witness :
    (∃ s, construct (.arr [(0 : ℚ), 0, 0]) [] (some (-2)) = .ok s ∧
        s.fs = some (-2) ∧ s.ts = 1 / (-2) ∧ s.ts < 0) ∧
      (∃ s, construct (.arr [(0 : ℚ), 0, 0]) [] (some 0) = .ok s ∧
        s.fs = some 1 ∧ s.ts = 1) :=
  ⟨(c8_fs_not_rejected [0, 0, 0] (by decide)).1 (-2) (by norm_num),
   (c8_fs_not_rejected [0, 0, 0] (by decide)).2.1⟩

/-- C10: a value-only array of exactly 2 samples does not take the
single-array branch (its guard requires strictly more than 2 samples) and
construction fails with TypeError instead of synthesizing a time axis,
whatever the sampling-rate argument; a value-only array of more than 2
samples is accepted with the given values as the y axis. -/
theorem c10_len2_value_only (ys : List ℚ) (fso : Option ℚ) :
    (ys.length = 2 → construct (.arr ys) [] fso = .error .typeError) ∧
      (2 < ys.length → ∃ s, construct (.arr ys) [] fso = .ok s ∧ s.data_y = ys) := by
  constructor
  · intro h2
    simp only [construct]
    rw [if_neg (by omega), if_pos h2]
  · intro h2
    cases fso with
    | none =>
      refine ⟨mkState ((List.range ys.length).map (fun i : ℕ => (i : ℚ) / 1)) ys
        (some 1) (1 / 1), ?_, rfl⟩
      simp only [construct, finishInit, if_pos h2]
      norm_num
    | some f =>
      by_cases hf : f = 0
      · subst hf
        refine ⟨mkState ((List.range ys.length).map (fun i : ℕ => (i : ℚ) / 1)) ys
          (some 1) (1 / 1), ?_, rfl⟩
        simp only [construct, finishInit, if_pos h2]
        norm_num
      · refine ⟨mkState ((List.range ys.length).map (fun i : ℕ => (i : ℚ) / f)) ys
          (some f) (1 / f), ?_, rfl⟩
        simp only [construct, finishInit, if_pos h2, if_neg hf]

/-- Witness for C10 at a 2-sample and a 3-sample value vector. -/
theorem c10_len2_value_only_witness :
    construct (.arr [(7 : ℚ), 8]) [] none = .error .typeError ∧
      ∃ s, construct (.arr [(7 : ℚ), 8, 9]) [] none = .ok s ∧
        s.data_y = [(7 : ℚ), 8, 9] :=
  ⟨(c10_len2_value_only [(7 : ℚ), 8] none).1 rfl,
   (c10_len2_value_only [(7 : ℚ), 8, 9] none).2 (by decide)⟩

/-- C2 (code evaluation at the failing input): for the 1,000,000-sample
series at 100 Hz with budget 10,000, the initial render strides the series
by 100 and hands exactly 10,000 points to the renderer - as claimed.  But
after recording the viewport (0, 1000), whose window holds 100,000
samples, the release recompute strides the FULL series by 10 and hands
100,000 points to the renderer, not 10,000: the stride is computed from
the window, while the slice is taken over the whole series. -/
theorem c2_end_to_end :
    ∃ s0 s1,
      construct (.arr bigY) [] (some 100) = .ok s0 ∧
      s0.line = (strideSlice 100 bigX, strideSlice 100 bigY) ∧
      s0.line.1.length = 10000 ∧
      onrelease (onchanged (0, 1000) s0) = .ok s1 ∧
      s1.line = (strideSlice 10 bigX, strideSlice 10 bigY) ∧
      s1.line.1.length = 100000 ∧ ¬ s1.line.1.length = 10000 := by
  have hcons : construct (.arr bigY) [] (some 100) =
      .ok (mkState bigX bigY (some 100) (1 / 100)) := by
    simp only [construct, finishInit, bigY_length,
      if_neg (show ¬ ((100 : ℚ) = 0) by norm_num)]
    rw [if_pos (show 2 < 1000000 by norm_num), bigX_eq]
  have hline0 : (mkState bigX bigY (some 100) (1 / 100)).line =
      (strideSlice 100 bigX, strideSlice 100 bigY) := by
    have hdf : (calc_downfact 10000 ((1000000 : ℕ) : ℤ)).toNat = 100 := by decide
    simp only [mkState]
    simp only [plotdata_line, bigX_length]
    rw [if_pos (by norm_num : ((1000000 : ℕ) : ℚ) > 10000), hdf]
  have hlen0 : (strideSlice 100 bigX).length = 10000 := by
    rw [strideSlice_length 100 (by norm_num) bigX, bigX_length]
  have hlen1 : (strideSlice 10 bigX).length = 100000 := by
    rw [strideSlice_length 10 (by norm_num) bigX, bigX_length]
  have hdata : onrelease_data (onchanged (0, 1000) (mkState bigX bigY (some 100) (1 / 100))) =
      .ok (strideSlice 10 bigX, strideSlice 10 bigY) := by
    have hpy : pyInt (((1000 : ℚ) - 0) / (1 / 100)) = 100000 := by decide
    have hdf10 : (calc_downfact 10000 (100000 : ℤ)).toNat = 10 := by decide
    simp only [onrelease_data, onchanged, mkState, ite_self, hpy,
      if_neg (show ¬ ((1 : ℚ) / 100 = 0) by norm_num)]
    rw [if_pos (by norm_num : (((100000 : ℤ) : ℚ)) > 10000), hdf10]
  have hrel : onrelease (onchanged (0, 1000) (mkState bigX bigY (some 100) (1 / 100))) =
      .ok { onchanged (0, 1000) (mkState bigX bigY (some 100) (1 / 100)) with
            line := (strideSlice 10 bigX, strideSlice 10 bigY) } := by
    unfold onrelease
    rw [hdata]
    rfl
  refine ⟨mkState bigX bigY (some 100) (1 / 100),
    { onchanged (0, 1000) (mkState bigX bigY (some 100) (1 / 100)) with
      line := (strideSlice 10 bigX, strideSlice 10 bigY) },
    hcons, hline0, ?_, hrel, rfl, ?_, ?_⟩
  · simp only [hline0]
    exact hlen0
  · exact hlen1
  · show ¬ (strideSlice 10 bigX).length = 10000
    rw [hlen1]
    norm_num

end ConcreteEvaluation

end Dataview
